import Mathlib

/-!
Verification development for the `binding-tool` repository.

The Rust sources (`src/deps.rs`, `src/command.rs`) are shallowly embedded
below: the filesystem is an explicit state value, the HTTP layer and the
SHA-256 hash are oracles passed as pure functions, and Rust `Result` /
`panic` outcomes are distinguished by the `RunResult` type (a returned
`Err` value is `RunResult.err`, a process panic is `RunResult.panicked`).
-/

namespace BindingTool

/-- Filesystem paths, as lists of path segments. -/
abbrev Path := List String

/-- Render a path with `/` separators (for error messages). -/
def pathToString : Path → String
  | [] => ""
  | [x] => x
  | x :: xs => x ++ "/" ++ pathToString xs

/-- Outcome of running a fallible Rust routine: a returned `Ok` value, a
returned `Err` value (`anyhow::Error` message), or an abort of the
executing thread (Rust `panic`, which is not a value returned to the
caller). -/
inductive RunResult (α : Type) where
  | ok (a : α)
  | err (msg : String)
  | panicked (msg : String)
deriving DecidableEq

/-- True exactly for a returned `Err` value (not an `Ok`, not a panic). -/
def RunResult.isReturnedErr {α : Type} : RunResult α → Bool
  | .err _ => true
  | _ => false

/-- A regular file: its byte contents (modelled as a `String`) and whether
reading it succeeds (`readable = false` models an I/O error such as a
permission failure on open/read). -/
structure FSFile where
  content : String
  readable : Bool
deriving DecidableEq

/-- The filesystem state: an association list of regular files and the set
of directories (directories are tracked explicitly; `create_dir_all` adds
to `dirs`). -/
structure FS where
  files : List (Path × FSFile)
  dirs : List Path
deriving DecidableEq

/-- Look up the file stored at `p`. -/
def FS.fileContent? (fs : FS) (p : Path) : Option FSFile :=
  (fs.files.find? (fun e => decide (e.1 = p))).map (·.2)

/-- A regular file exists at `p`. -/
def FS.existsFile (fs : FS) (p : Path) : Bool :=
  (fs.fileContent? p).isSome

/-- A directory exists at `p` (models Rust `Path::is_dir`). -/
def FS.isDir (fs : FS) (p : Path) : Bool :=
  decide (p ∈ fs.dirs)

/-- Something exists at `p` (models Rust `Path::exists`). -/
def FS.pathExists (fs : FS) (p : Path) : Bool :=
  fs.existsFile p || fs.isDir p

/-- Create or truncate-and-write the file at `p` (models
`File::create` followed by writing `c`). -/
def FS.writeFile (fs : FS) (p : Path) (c : String) : FS :=
  { fs with files := (p, ⟨c, true⟩) :: fs.files.filter (fun e => !(decide (e.1 = p))) }

/-- Open the file at `p` and read it to the end (models `File::open` plus
`io::copy` out of it): an absent file or an unreadable file is an I/O
error. -/
def FS.openRead (fs : FS) (p : Path) : RunResult String :=
  match fs.fileContent? p with
  | none => .err ("cannot open file " ++ pathToString p)
  | some f => if f.readable then .ok f.content else .err ("io error on " ++ pathToString p)

/-- Models `fs::create_dir_all`. -/
def FS.createDirAll (fs : FS) (p : Path) : FS :=
  if decide (p ∈ fs.dirs) then fs else { fs with dirs := p :: fs.dirs }

/-- Models `fs::remove_file`: fails if no regular file is at `p`. -/
def FS.removeFile (fs : FS) (p : Path) : RunResult FS :=
  if fs.existsFile p then
    .ok { fs with files := fs.files.filter (fun e => !(decide (e.1 = p))) }
  else
    .err ("No such file or directory: " ++ pathToString p)

/-- `pathUnder p q` holds when `p` is an ancestor of (or equal to) `q`. -/
def pathUnder : Path → Path → Bool
  | [], _ => true
  | _ :: _, [] => false
  | x :: xs, y :: ys => decide (x = y) && pathUnder xs ys

/-- Models `fs::remove_dir_all`: removes the directory at `p` and
everything below it; fails if no directory is at `p`. -/
def FS.removeDirAll (fs : FS) (p : Path) : RunResult FS :=
  if fs.isDir p then
    .ok { files := fs.files.filter (fun e => !(pathUnder p e.1)),
          dirs := fs.dirs.filter (fun d => !(pathUnder p d)) }
  else
    .err ("cannot remove " ++ pathToString p)

/-- Does the character list start with the given sequence? -/
def startsWithSeq : List Char → List Char → Bool
  | _, [] => true
  | [], _ :: _ => false
  | x :: xs, y :: ys => decide (x = y) && startsWithSeq xs ys

/-- Split a character list at the first occurrence of the separator
sequence `sep`: the part before it and the part after it. -/
def splitOnceSeq : List Char → List Char → Option (List Char × List Char)
  | [], _ => none
  | x :: xs, sep =>
    if startsWithSeq (x :: xs) sep then some ([], (x :: xs).drop sep.length)
    else
      match splitOnceSeq xs sep with
      | some (a, b) => some (x :: a, b)
      | none => none

/-- Split a character list on every occurrence of the character `c`
(models `str::split` / `String.splitOn` for a one-character pattern). -/
def splitChar : List Char → Char → List (List Char)
  | [], _ => [[]]
  | x :: xs, c =>
    if x = c then [] :: splitChar xs c
    else
      match splitChar xs c with
      | [] => [[x]]
      | a :: rest => (x :: a) :: rest

/-- Split a character list at the first occurrence of `c`. -/
def splitOnceChar : List Char → Char → Option (List Char × List Char)
  | [], _ => none
  | x :: xs, c =>
    if x = c then some ([], xs)
    else
      match splitOnceChar xs c with
      | some (a, b) => some (x :: a, b)
      | none => none

/-- Models Rust `str::split_once(c)`: splits at the first occurrence of
the character `c`; `none` when `c` does not occur. -/
def splitOnce (s : String) (c : Char) : Option (String × String) :=
  (splitOnceChar s.data c).map (fun p => (String.mk p.1, String.mk p.2))

/-- Split a string at the first occurrence of the separator string `sep`
(models `str::splitn(2, sep)` yielding two pieces). -/
def splitOnceStr (s sep : String) : Option (String × String) :=
  (splitOnceSeq s.data sep.data).map (fun p => (String.mk p.1, String.mk p.2))

/-- One manifest dependency (struct `Dependency` of `src/deps.rs`). -/
structure Dependency where
  sha256 : String
  uri : String
deriving DecidableEq

/-- `Dependency::filename` of `src/deps.rs`: the last path segment of the
URI. The `url` crate's `Url::parse` + `path_segments` is modelled as:
a URI without a `://` authority separator cannot be a base and has no
path segments (error); otherwise the segments are the `/`-separated
pieces after the host, an empty path normalizing to the single segment
`""`. -/
def Dependency.filename (d : Dependency) : RunResult String :=
  match splitOnceStr d.uri "://" with
  | none => .err ("no path segments for " ++ d.uri)
  | some (_, rest) =>
    match ((splitChar rest.data '/').drop 1).getLast? with
    | some s => .ok (String.mk s)
    | none => .ok ""

/-- `Dependency::checksum_matches` of `src/deps.rs` (lines 46-59).
`H` is the SHA-256 oracle: it maps file contents to the lower-case hex
digest string produced by `hex::encode(Sha256 digest)`. The embedding is
pure: it returns no filesystem, so it can mutate nothing. -/
def Dependency.checksum_matches (d : Dependency) (H : String → String) (fs : FS)
    (binding_path : Path) : RunResult Bool :=
  match d.filename with
  | .err e => .err e
  | .panicked m => .panicked m
  | .ok fname =>
    let dest := binding_path ++ ["binaries", fname]
    if fs.pathExists dest = false then .ok false
    else
      match fs.openRead dest with
      | .err e => .err e
      | .panicked m => .panicked m
      | .ok content => .ok (decide (H content = d.sha256))

/-- Outcome of the HTTP GET for one URI: a failed call (`agent.get(..)
.call()` returns `Err`), or a response whose body streams `body` bytes to
the destination file, `copyOk = false` meaning the body copy failed after
writing the prefix `body`. -/
inductive GetResult where
  | failure (msg : String)
  | success (body : String) (copyOk : Bool)
deriving DecidableEq

/-- `Dependency::download` of `src/deps.rs` (lines 61-74). `http` is the
network oracle. Returns the call result, the filesystem afterwards, and
the list of HTTP requests issued (by URI), in order. Note the destination
file is created (truncated) before the GET is issued. -/
def Dependency.download (d : Dependency) (H : String → String) (http : String → GetResult)
    (fs : FS) (binding_path : Path) : RunResult Unit × FS × List String :=
  match d.checksum_matches H fs binding_path with
  | .err e => (.err e, fs, [])
  | .panicked m => (.panicked m, fs, [])
  | .ok true => (.ok (), fs, [])
  | .ok false =>
    match d.filename with
    | .err e => (.err e, fs, [])
    | .panicked m => (.panicked m, fs, [])
    | .ok fname =>
      let dest := binding_path ++ ["binaries", fname]
      let fs1 := fs.writeFile dest ""
      match http d.uri with
      | .failure msg => (.err msg, fs1, [d.uri])
      | .success body copyOk =>
        let fs2 := fs1.writeFile dest body
        if copyOk then (.ok (), fs2, [d.uri]) else (.err "copy failed", fs2, [d.uri])

/-- The three confirmation strategies of `src/command.rs`. The console
variant carries its model of standard input: the lines still to be read,
`none` standing for a failed `read_line`. -/
inductive BindingConfirmers where
  | Console (stdin : List (Option String))
  | Always
  | Never
deriving DecidableEq

/-- Is the character ASCII whitespace (as `char::is_whitespace` sees the
characters that occur on a console line)? -/
def isWhitespaceChar (c : Char) : Bool :=
  decide (c = ' ') || decide (c = '\t') || decide (c = '\n') || decide (c = '\r')

/-- Trim leading and trailing whitespace from a character list. -/
def trimChars (l : List Char) : List Char :=
  ((l.dropWhile isWhitespaceChar).reverse.dropWhile isWhitespaceChar).reverse

/-- Lower-case one character (ASCII model of `to_lowercase`). -/
def lowerChar (c : Char) : Char :=
  if decide ('A' ≤ c) && decide (c ≤ 'Z') then Char.ofNat (c.toNat + 32) else c

/-- `ConsoleBindingConfirmer::confirm`'s decision on one stdin line:
`res.is_ok() && (trimmed lower-cased input == "y" || .. == "yes")`. -/
def consoleAnswer : Option String → Bool
  | none => false
  | some line =>
    let input := String.mk ((trimChars line.data).map lowerChar)
    decide (input = "y") || decide (input = "yes")

/-- `BindingConfirmers::confirm` of `src/command.rs`: the decision plus the
confirmer afterwards (the console variant consumes one stdin line; the
prompt string does not influence the decision and is omitted). -/
def BindingConfirmers.confirm : BindingConfirmers → Bool × BindingConfirmers
  | .Always => (true, .Always)
  | .Never => (false, .Never)
  | .Console [] => (false, .Console [])
  | .Console (l :: rest) => (consoleAnswer l, .Console rest)

/-- Struct `BindingWriter` of `src/command.rs`. -/
structure BindingWriter where
  path : Path
  b_type : String
  key : String
  value : String

/-- `BindingWriter::binding_key_path`. -/
def BindingWriter.binding_key_path (w : BindingWriter) : Path :=
  w.path ++ [w.key]

/-- A path string resolved to segments (models path canonicalization of an
existing absolute or relative path). -/
def parsePath (s : String) : Path :=
  ((splitChar s.data '/').filter (fun seg => !seg.isEmpty)).map String.mk

/-- Models Rust `str::trim_start_matches(c)`: drops every leading `c`. -/
def trimStartMatches (s : String) (c : Char) : String :=
  String.mk (s.data.dropWhile (fun x => x = c))

/-- `BindingWriter::write_type`: writes the type marker, always
overwriting. -/
def BindingWriter.write_type (w : BindingWriter) (fs : FS) : RunResult Unit × FS :=
  (.ok (), fs.writeFile (w.path ++ ["type"]) w.b_type)

/-- `BindingWriter::write_key_as_file`: canonicalize the source path named
after the leading `@` (error if it does not resolve) and copy its bytes to
the key path. -/
def BindingWriter.write_key_as_file (w : BindingWriter) (fs : FS) : RunResult Unit × FS :=
  let src := trimStartMatches w.value '@'
  let src_path := parsePath src
  match fs.fileContent? src_path with
  | none => (.err ("cannot canonicalize path to source file: " ++ src), fs)
  | some _ =>
    match fs.openRead src_path with
    | .ok c => (.ok (), fs.writeFile w.binding_key_path c)
    | _ => (.err ("failed to copy " ++ src), fs)

/-- `BindingWriter::write_key_as_value`: writes the literal value bytes to
the key path. -/
def BindingWriter.write_key_as_value (w : BindingWriter) (fs : FS) : RunResult Unit × FS :=
  (.ok (), fs.writeFile w.binding_key_path w.value)

/-- `BindingWriter::write` of `src/command.rs` (lines 230-243): create the
binding directory, write the type marker, then write the key (file
reference when the value starts with `@`, literal bytes otherwise). -/
def BindingWriter.write (w : BindingWriter) (fs : FS) : RunResult Unit × FS :=
  let fs0 := fs.createDirAll w.path
  match w.write_type fs0 with
  | (.ok _, fs1) =>
    match w.value.data with
    | '@' :: _ => w.write_key_as_file fs1
    | _ => w.write_key_as_value fs1
  | other => other

/-- Struct `BindingProcessor` of `src/command.rs`. -/
structure BindingProcessor where
  bindings_home : Path
  binding_type : Option String
  binding_name : Option String
  confirmer : BindingConfirmers

/-- `BindingProcessor::add_binding` of `src/command.rs` (lines 176-203):
require a binding type, split the pair at the first `=`, gate an existing
key path behind a confirmation, then delegate to `BindingWriter::write`.
Returns the result, the filesystem, and the confirmer afterwards. -/
def BindingProcessor.add_binding (bp : BindingProcessor) (fs : FS) (kv : String) :
    RunResult Unit × FS × BindingConfirmers :=
  match bp.binding_type with
  | none => (.err "binding type is required when adding a binding", fs, bp.confirmer)
  | some btype =>
    let binding_path := bp.bindings_home ++ [bp.binding_name.getD btype]
    match splitOnce kv '=' with
    | some (bkey, bval) =>
      let w : BindingWriter := ⟨binding_path, btype, bkey, bval⟩
      if fs.pathExists w.binding_key_path then
        match bp.confirmer.confirm with
        | (true, c') =>
          let (res, fs') := w.write fs
          (res, fs', c')
        | (false, c') => (.err "binding already exists", fs, c')
      else
        let (res, fs') := w.write fs
        (res, fs', bp.confirmer)
    | none => (.err ("could not parse key/value -> " ++ kv), fs, bp.confirmer)

/-- The per-key loop of `BindingProcessor::delete_bindings` (lines
139-150): for each key whose path exists, confirm, then remove the file;
a declined confirmation aborts with an error. -/
def delete_keys_loop (conf : BindingConfirmers) (fs : FS) (binding_path : Path) :
    List String → RunResult Unit × FS × BindingConfirmers
  | [] => (.ok (), fs, conf)
  | k :: rest =>
    let kp := binding_path ++ [k]
    if fs.pathExists kp then
      match conf.confirm with
      | (true, conf') =>
        match fs.removeFile kp with
        | .ok fs' => delete_keys_loop conf' fs' binding_path rest
        | .err m => (.err m, fs, conf')
        | .panicked m => (.panicked m, fs, conf')
      | (false, conf') => (.err "confirmation declined, exiting", fs, conf')
    else delete_keys_loop conf fs binding_path rest

/-- `BindingProcessor::delete_bindings` of `src/command.rs` (lines
130-163): require the bindings home to be a directory, unwrap the binding
name (a panic when absent), run the per-key loop, and when the key list is
empty gate removal of the whole binding directory behind one
confirmation. -/
def BindingProcessor.delete_bindings (bp : BindingProcessor) (fs : FS) (keys : List String) :
    RunResult Unit × FS × BindingConfirmers :=
  if !(fs.isDir bp.bindings_home) then (.err "bindings home must be a directory", fs, bp.confirmer)
  else
    match bp.binding_name with
    | none => (.panicked "called Option unwrap on a None value", fs, bp.confirmer)
    | some name =>
      let binding_path := bp.bindings_home ++ [name]
      match delete_keys_loop bp.confirmer fs binding_path keys with
      | (.ok _, fs1, c1) =>
        if decide (keys.length = 0) then
          match c1.confirm with
          | (true, c2) =>
            match fs1.removeDirAll binding_path with
            | .ok fs2 => (.ok (), fs2, c2)
            | .err m => (.err m, fs1, c2)
            | .panicked m => (.panicked m, fs1, c2)
          | (false, c2) => (.err "confirmation declined, exiting", fs1, c2)
        else (.ok (), fs1, c1)
      | other => other

/-- The confirmer chosen by `DeleteCommandHandler::handle` of
`src/command.rs` (lines 366-370): the force flag selects the auto-deny
`Never` confirmer, its absence the interactive console confirmer. -/
def delete_command_confirmer (force : Bool) (stdin : List (Option String)) : BindingConfirmers :=
  if force then .Never else .Console stdin

/-- TOML values (`toml::Value`), as far as `transform` inspects them. -/
inductive Toml where
  | str (s : String)
  | intv (n : Int)
  | boolean (b : Bool)
  | table (kvs : List (String × Toml))
  | arr (xs : List Toml)

/-- `toml::Value::as_table`. -/
def Toml.as_table : Toml → Option (List (String × Toml))
  | .table kvs => some kvs
  | _ => none

/-- `toml::Value::as_str`. -/
def Toml.as_str : Toml → Option String
  | .str s => some s
  | _ => none

/-- `toml::Value::as_array`. -/
def Toml.as_array : Toml → Option (List Toml)
  | .arr xs => some xs
  | _ => none

/-- `Table::get` on a TOML table. -/
def tomlGet (kvs : List (String × Toml)) (k : String) : Option Toml :=
  (kvs.find? (fun e => decide (e.1 = k))).map (·.2)

/-- The per-entry loop of `transform` in `src/deps.rs` (lines 206-250):
each entry must be a table with a string `uri`; having both of
`sha256`/`checksum` or neither is a panic; a `checksum` whose
algorithm tag (the part before the first `:`) is not `sha256` is a
panic. -/
def transformDeps : List Toml → RunResult (List Dependency)
  | [] => .ok []
  | d :: rest =>
    match d.as_table with
    | none => .err "dependency should be a table"
    | some table =>
      match tomlGet table "uri" with
      | none => .err "uri field is required"
      | some uriv =>
        match uriv.as_str with
        | none => .err "uri should be a string"
        | some uri =>
          let sha256 := tomlGet table "sha256"
          let checksum := tomlGet table "checksum"
          if (sha256.isSome && checksum.isSome) || (sha256.isNone && checksum.isNone) then
            .panicked "sha256 or checksum field is required"
          else
            match sha256 with
            | some shav =>
              match shav.as_str with
              | none => .err "sha256 field should be a string"
              | some s =>
                match transformDeps rest with
                | .ok deps => .ok ({ sha256 := s, uri := uri } :: deps)
                | other => other
            | none =>
              match checksum with
              | some csv =>
                match csv.as_str with
                | none => .err "checksum field should be a string"
                | some cs =>
                  match splitOnce cs ':' with
                  | some (alg, hash) =>
                    if decide (alg = "sha256") then
                      match transformDeps rest with
                      | .ok deps => .ok ({ sha256 := hash, uri := uri } :: deps)
                      | other => other
                    else .panicked "only sha256 algorithm is supported"
                  | none => .panicked "only sha256 algorithm is supported"
              | none => transformDeps rest

/-- `transform` of `src/deps.rs` (lines 187-253): shape checks down to the
dependency array, then the per-entry loop. -/
def transform (toml : Toml) : RunResult (List Dependency) :=
  match toml.as_table with
  | none => .err "buildpack.toml format is invalid"
  | some bp_toml =>
    match tomlGet bp_toml "metadata" with
    | none => .err "no metadata present in buildpack.toml"
    | some mv =>
      match mv.as_table with
      | none => .err "metadata should be a table"
      | some metadata =>
        match tomlGet metadata "dependencies" with
        | none => .err "no dependencies present"
        | some dv =>
          match dv.as_array with
          | none => .err "dependencies should be an array"
          | some deps_metadata => transformDeps deps_metadata

/-- The payload a panicking worker thread carries: `panic` with a
formatted message boxes a `String`; any other abort (for example a
poisoned-lock `expect`) boxes something that does not downcast to
`String`. -/
inductive PanicPayload where
  | str (s : String)
  | other (s : String)
deriving DecidableEq

/-- What `JoinHandle::join` on one worker observes: normal completion, or
the panic payload. -/
inductive JoinResult where
  | ok
  | panicked (payload : PanicPayload)
deriving DecidableEq

/-- The worker closure of `download_dependencies` (lines 133-140),
abstracted over the downloads it pops from the shared queue: downloads in
order, and panics with the formatted message on the first failed
download. `dl` is the outcome of `Dependency::download` for each
dependency. -/
def worker_process (dl : Dependency → RunResult Unit) : List Dependency → JoinResult
  | [] => .ok
  | d :: rest =>
    match dl d with
    | .ok _ => worker_process dl rest
    | .err e => .panicked (.str ("Download of " ++ d.uri ++ " failed with error " ++ e))
    | .panicked m => .panicked (.other m)

/-- The join loop of `download_dependencies` (lines 143-149): joins the
handles in spawn order and returns an error at the first join whose panic
payload downcasts to `String` — without joining the remaining handles.
Besides the result it returns how many handles were joined. -/
def join_workers : List JoinResult → RunResult Unit × Nat
  | [] => (.ok (), 0)
  | .ok :: rest =>
    let (r, n) := join_workers rest
    (r, n + 1)
  | .panicked (.str s) :: _ => (.err ("thread panic: " ++ s), 1)
  | .panicked (.other _) :: rest =>
    let (r, n) := join_workers rest
    (r, n + 1)

/-- `download_dependencies` of `src/deps.rs` (lines 114-152). The
nondeterministic interleaving of the worker pool popping the shared
locked queue is abstracted as an arbitrary split of the queue into the
per-worker pop sequences (`queue_split`, one list per spawned worker);
the environment-derived pool size and agent configuration are implicit in
the split's length. Returns the call result and the number of worker
handles joined before returning. -/
def download_dependencies (dl : Dependency → RunResult Unit)
    (queue_split : List (List Dependency)) : RunResult Unit × Nat :=
  join_workers (queue_split.map (worker_process dl))

/-! ### Basic filesystem lemmas -/

theorem FS.fileContent?_writeFile_self (fs : FS) (p : Path) (c : String) :
    (fs.writeFile p c).fileContent? p = some ⟨c, true⟩ := by
  simp [FS.fileContent?, FS.writeFile, List.find?]

theorem checksum_matches_eval (d : Dependency) (H : String → String) (fs : FS)
    (bp : Path) (f c : String) (hf : d.filename = .ok f)
    (hc : fs.fileContent? (bp ++ ["binaries", f]) = some ⟨c, true⟩) :
    d.checksum_matches H fs bp = .ok (decide (H c = d.sha256)) := by
  unfold Dependency.checksum_matches
  rw [hf]
  simp [FS.pathExists, FS.existsFile, FS.openRead, hc]

theorem checksum_matches_absent (d : Dependency) (H : String → String) (fs : FS)
    (bp : Path) (f : String) (hf : d.filename = .ok f)
    (hne : fs.pathExists (bp ++ ["binaries", f]) = false) :
    d.checksum_matches H fs bp = .ok false := by
  unfold Dependency.checksum_matches
  rw [hf]
  simp [hne]

theorem checksum_matches_unreadable (d : Dependency) (H : String → String) (fs : FS)
    (bp : Path) (f c : String) (hf : d.filename = .ok f)
    (hc : fs.fileContent? (bp ++ ["binaries", f]) = some ⟨c, false⟩) :
    d.checksum_matches H fs bp
      = .err ("io error on " ++ pathToString (bp ++ ["binaries", f])) := by
  unfold Dependency.checksum_matches
  rw [hf]
  simp [FS.pathExists, FS.existsFile, FS.openRead, hc]

/-! ### C1 -/

/-- C1: if the destination file `bindingPath/binaries/<filename(uri)>`
exists and its digest (per the hash oracle `H`) equals the dependency's
declared `sha256`, then `Dependency::download` issues no HTTP request,
returns the filesystem unchanged, and succeeds; invoking the download
again on the resulting state returns the very same outcome, so repeated
fetches over already-satisfied dependencies are idempotent. -/
theorem c1_checksum_skip_idempotent
    (H : String → String) (http : String → GetResult) (fs : FS) (d : Dependency)
    (bp : Path) (f c : String)
    (hf : d.filename = .ok f)
    (hc : fs.fileContent? (bp ++ ["binaries", f]) = some ⟨c, true⟩)
    (hh : H c = d.sha256) :
    d.download H http fs bp = (.ok (), fs, []) ∧
    d.download H http (d.download H http fs bp).2.1 bp = d.download H http fs bp := by
  have hcm : d.checksum_matches H fs bp = .ok true := by
    rw [checksum_matches_eval d H fs bp f c hf hc]
    simp [hh]
  have h1 : d.download H http fs bp = (.ok (), fs, []) := by
    unfold Dependency.download
    rw [hcm]
  exact ⟨h1, by rw [h1]; exact h1⟩

/-- Witness for C1 at a concrete dependency, filesystem and oracles. -/
theorem c1_witness :
    Dependency.download ⟨"digest", "https://example.com/file.bin"⟩ (fun _ => "digest")
      (fun _ => .failure "net down")
      ⟨[(["b", "binaries", "file.bin"], ⟨"data", true⟩)], []⟩ ["b"]
      = (.ok (), ⟨[(["b", "binaries", "file.bin"], ⟨"data", true⟩)], []⟩, []) :=
  (c1_checksum_skip_idempotent (fun _ => "digest") (fun _ => .failure "net down")
    ⟨[(["b", "binaries", "file.bin"], ⟨"data", true⟩)], []⟩
    ⟨"digest", "https://example.com/file.bin"⟩ ["b"] "file.bin" "data"
    (by decide) (by decide) rfl).1

/-! ### C8 -/

/-- C8: `Dependency::checksum_matches` returns `Ok(false)` when the
destination path does not exist; when a readable file is there it returns
`Ok(true)` exactly when the file's digest equals the declared `sha256`
and `Ok(false)` exactly when it differs; an I/O failure on the file
yields an `Err`, never a `false` result. (The embedding is a pure
function of the filesystem state, so the check mutates nothing by
construction.) -/
theorem c8_checksum_matches_contract
    (H : String → String) (fs : FS) (d : Dependency) (bp : Path) (f : String)
    (hf : d.filename = .ok f) :
    (fs.pathExists (bp ++ ["binaries", f]) = false →
      d.checksum_matches H fs bp = .ok false) ∧
    (∀ c, fs.fileContent? (bp ++ ["binaries", f]) = some ⟨c, true⟩ →
      (d.checksum_matches H fs bp = .ok true ↔ H c = d.sha256) ∧
      (d.checksum_matches H fs bp = .ok false ↔ ¬H c = d.sha256)) ∧
    (∀ c, fs.fileContent? (bp ++ ["binaries", f]) = some ⟨c, false⟩ →
      ∃ e, d.checksum_matches H fs bp = .err e) := by
  refine ⟨fun hne => checksum_matches_absent d H fs bp f hf hne, fun c hc => ?_, fun c hc => ?_⟩
  · rw [checksum_matches_eval d H fs bp f c hf hc]
    constructor <;> constructor <;> intro h <;> simp_all
  · exact ⟨_, checksum_matches_unreadable d H fs bp f c hf hc⟩

/-- Witness for C8: the three branches at concrete filesystems. -/
theorem c8_witness :
    Dependency.checksum_matches ⟨"digest", "https://example.com/a.tgz"⟩ (fun _ => "digest")
      ⟨[], []⟩ ["b"] = .ok false ∧
    Dependency.checksum_matches ⟨"digest", "https://example.com/a.tgz"⟩ (fun _ => "digest")
      ⟨[(["b", "binaries", "a.tgz"], ⟨"data", true⟩)], []⟩ ["b"] = .ok true ∧
    (∃ e, Dependency.checksum_matches ⟨"digest", "https://example.com/a.tgz"⟩ (fun _ => "digest")
      ⟨[(["b", "binaries", "a.tgz"], ⟨"data", false⟩)], []⟩ ["b"] = .err e) :=
  ⟨(c8_checksum_matches_contract (fun _ => "digest") ⟨[], []⟩
      ⟨"digest", "https://example.com/a.tgz"⟩ ["b"] "a.tgz" (by decide)).1 (by decide),
   ((c8_checksum_matches_contract (fun _ => "digest")
      ⟨[(["b", "binaries", "a.tgz"], ⟨"data", true⟩)], []⟩
      ⟨"digest", "https://example.com/a.tgz"⟩ ["b"] "a.tgz" (by decide)).2.1 "data"
      (by decide)).1.mpr rfl,
   (c8_checksum_matches_contract (fun _ => "digest")
      ⟨[(["b", "binaries", "a.tgz"], ⟨"data", false⟩)], []⟩
      ⟨"digest", "https://example.com/a.tgz"⟩ ["b"] "a.tgz" (by decide)).2.2 "data" (by decide)⟩

/-! ### C7 -/

/-- C7: when the destination does not already match the declared digest
(`checksum_matches` says `false`) and the HTTP GET and body copy succeed,
`Dependency::download` returns success and leaves the raw response body
at the destination, even when that body's digest differs from the
declared `sha256`: no post-download verification happens. -/
theorem c7_no_post_download_verification
    (H : String → String) (http : String → GetResult) (fs : FS) (d : Dependency)
    (bp : Path) (f body : String)
    (hf : d.filename = .ok f)
    (hcm : d.checksum_matches H fs bp = .ok false)
    (hhttp : http d.uri = .success body true)
    (_hdiff : H body ≠ d.sha256) :
    (d.download H http fs bp).1 = .ok () ∧
    (d.download H http fs bp).2.1.fileContent? (bp ++ ["binaries", f])
      = some ⟨body, true⟩ := by
  have h1 : d.download H http fs bp
      = (.ok (), (fs.writeFile (bp ++ ["binaries", f]) "").writeFile
          (bp ++ ["binaries", f]) body, [d.uri]) := by
    unfold Dependency.download
    rw [hcm, hf, hhttp]
    rfl
  rw [h1]
  exact ⟨rfl, FS.fileContent?_writeFile_self _ _ _⟩

/-- Witness for C7: a fetched body that does not hash to the declared
digest is still reported as success. -/
theorem c7_witness :
    (Dependency.download ⟨"digest", "https://example.com/a.tgz"⟩ (fun s => "hash " ++ s)
      (fun _ => .success "corrupt" true) ⟨[], []⟩ ["b"]).1 = .ok () ∧
    (Dependency.download ⟨"digest", "https://example.com/a.tgz"⟩ (fun s => "hash " ++ s)
      (fun _ => .success "corrupt" true) ⟨[], []⟩ ["b"]).2.1.fileContent?
      ["b", "binaries", "a.tgz"] = some ⟨"corrupt", true⟩ :=
  c7_no_post_download_verification (fun s => "hash " ++ s)
    (fun _ => .success "corrupt" true) ⟨[], []⟩ ⟨"digest", "https://example.com/a.tgz"⟩
    ["b"] "a.tgz" "corrupt" (by decide) (by decide) rfl (by decide)

/-! ### C9 -/

/-- C9: `Dependency::download` creates (truncates) the destination before
the GET, so a failed GET returns an error while an empty destination file
now exists (the download is not atomic on error); a later fetch of the
same dependency sees that file, fails its checksum (the empty content
does not hash to the digest), and re-issues the HTTP request, after which
the artifact is written. A failed body copy likewise leaves the partial
prefix on disk. -/
theorem c9_nonatomic_error_then_redownload
    (H : String → String) (http http2 http3 : String → GetResult) (fs : FS)
    (d : Dependency) (bp : Path) (f m body part : String)
    (hf : d.filename = .ok f)
    (hne : fs.pathExists (bp ++ ["binaries", f]) = false)
    (hfail : http d.uri = .failure m)
    (hemp : H "" ≠ d.sha256)
    (hh2 : http2 d.uri = .success body true)
    (hh3 : http3 d.uri = .success part false) :
    (d.download H http fs bp).1 = .err m ∧
    (d.download H http fs bp).2.1.fileContent? (bp ++ ["binaries", f]) = some ⟨"", true⟩ ∧
    (d.download H http fs bp).2.2 = [d.uri] ∧
    (d.download H http2 (d.download H http fs bp).2.1 bp).2.2 = [d.uri] ∧
    (d.download H http2 (d.download H http fs bp).2.1 bp).1 = .ok () ∧
    (d.download H http3 (d.download H http fs bp).2.1 bp).1 = .err "copy failed" ∧
    (d.download H http3 (d.download H http fs bp).2.1 bp).2.1.fileContent?
      (bp ++ ["binaries", f]) = some ⟨part, true⟩ := by
  have hcm : d.checksum_matches H fs bp = .ok false :=
    checksum_matches_absent d H fs bp f hf hne
  have h1 : d.download H http fs bp = (.err m, fs.writeFile (bp ++ ["binaries", f]) "", [d.uri]) := by
    unfold Dependency.download
    rw [hcm, hf, hfail]
  have hcm1 : d.checksum_matches H (fs.writeFile (bp ++ ["binaries", f]) "") bp = .ok false := by
    rw [checksum_matches_eval d H _ bp f "" hf (FS.fileContent?_writeFile_self _ _ _)]
    simp [hemp]
  have h2 : d.download H http2 (fs.writeFile (bp ++ ["binaries", f]) "") bp
      = (.ok (), ((fs.writeFile (bp ++ ["binaries", f]) "").writeFile
          (bp ++ ["binaries", f]) "").writeFile (bp ++ ["binaries", f]) body, [d.uri]) := by
    unfold Dependency.download
    rw [hcm1, hf, hh2]
    rfl
  have h3 : d.download H http3 (fs.writeFile (bp ++ ["binaries", f]) "") bp
      = (.err "copy failed", ((fs.writeFile (bp ++ ["binaries", f]) "").writeFile
          (bp ++ ["binaries", f]) "").writeFile (bp ++ ["binaries", f]) part, [d.uri]) := by
    unfold Dependency.download
    rw [hcm1, hf, hh3]
    rfl
  rw [h1]
  refine ⟨rfl, FS.fileContent?_writeFile_self _ _ _, rfl, ?_, ?_, ?_, ?_⟩
  · rw [show ((RunResult.err m, fs.writeFile (bp ++ ["binaries", f]) "", [d.uri]) :
      RunResult Unit × FS × List String).2.1 = fs.writeFile (bp ++ ["binaries", f]) "" from rfl, h2]
  · rw [show ((RunResult.err m, fs.writeFile (bp ++ ["binaries", f]) "", [d.uri]) :
      RunResult Unit × FS × List String).2.1 = fs.writeFile (bp ++ ["binaries", f]) "" from rfl, h2]
  · rw [show ((RunResult.err m, fs.writeFile (bp ++ ["binaries", f]) "", [d.uri]) :
      RunResult Unit × FS × List String).2.1 = fs.writeFile (bp ++ ["binaries", f]) "" from rfl, h3]
  · rw [show ((RunResult.err m, fs.writeFile (bp ++ ["binaries", f]) "", [d.uri]) :
      RunResult Unit × FS × List String).2.1 = fs.writeFile (bp ++ ["binaries", f]) "" from rfl, h3]
    exact FS.fileContent?_writeFile_self _ _ _

/-- Witness for C9 at a concrete dependency and oracles. -/
theorem c9_witness :
    (Dependency.download ⟨"digest", "https://example.com/a.tgz"⟩ (fun s => "hash " ++ s)
      (fun _ => .failure "timeout") ⟨[], []⟩ ["b"]).1 = .err "timeout" ∧
    (Dependency.download ⟨"digest", "https://example.com/a.tgz"⟩ (fun s => "hash " ++ s)
      (fun _ => .failure "timeout") ⟨[], []⟩ ["b"]).2.1.fileContent?
      ["b", "binaries", "a.tgz"] = some ⟨"", true⟩ ∧
    (Dependency.download ⟨"digest", "https://example.com/a.tgz"⟩ (fun s => "hash " ++ s)
      (fun _ => .success "bytes" true)
      (Dependency.download ⟨"digest", "https://example.com/a.tgz"⟩ (fun s => "hash " ++ s)
        (fun _ => .failure "timeout") ⟨[], []⟩ ["b"]).2.1 ["b"]).2.2 = ["https://example.com/a.tgz"] := by
  have h := c9_nonatomic_error_then_redownload (fun s => "hash " ++ s)
    (fun _ => .failure "timeout") (fun _ => .success "bytes" true)
    (fun _ => .success "by" false) ⟨[], []⟩ ⟨"digest", "https://example.com/a.tgz"⟩
    ["b"] "a.tgz" "timeout" "bytes" "by" (by decide) (by decide) rfl (by decide) rfl rfl
  exact ⟨h.1, h.2.1, h.2.2.2.1⟩

/-! ### C2 -/

theorem worker_process_panics (dl : Dependency → RunResult Unit)
    (hnp : ∀ d m, dl d ≠ .panicked m) :
    ∀ ds : List Dependency, (∃ d ∈ ds, ∃ e, dl d = .err e) →
      ∃ s, worker_process dl ds = .panicked (.str s) := by
  intro ds
  induction ds with
  | nil => rintro ⟨d, hd, _⟩; cases hd
  | cons x xs ih =>
    rintro ⟨d, hd, e, he⟩
    cases hx : dl x with
    | ok a =>
      cases hd with
      | head => rw [hx] at he; cases he
      | tail _ hmem =>
        obtain ⟨s, hs⟩ := ih ⟨d, hmem, e, he⟩
        exact ⟨s, by simp [worker_process, hx, hs]⟩
    | err e2 =>
      exact ⟨"Download of " ++ x.uri ++ " failed with error " ++ e2,
        by simp [worker_process, hx]⟩
    | panicked m => exact absurd hx (hnp x m)

theorem join_workers_err_of_str_panic :
    ∀ l : List JoinResult, (∃ j ∈ l, ∃ s, j = .panicked (.str s)) →
      ∃ m, (join_workers l).1 = .err m := by
  intro l
  induction l with
  | nil => rintro ⟨j, hj, _⟩; cases hj
  | cons x xs ih =>
    rintro ⟨j, hj, s, hs⟩
    cases x with
    | ok =>
      cases hj with
      | head => cases hs
      | tail _ hmem =>
        obtain ⟨m, hm⟩ := ih ⟨j, hmem, s, hs⟩
        exact ⟨m, by simp [join_workers]; exact hm⟩
    | panicked payload =>
      cases payload with
      | str s2 => exact ⟨"thread panic: " ++ s2, by simp [join_workers]⟩
      | other s2 =>
        cases hj with
        | head => cases hs
        | tail _ hmem =>
          obtain ⟨m, hm⟩ := ih ⟨j, hmem, s, hs⟩
          exact ⟨m, by simp [join_workers]; exact hm⟩

theorem join_workers_count_le :
    ∀ l : List JoinResult, (join_workers l).2 ≤ l.length := by
  intro l
  induction l with
  | nil => simp [join_workers]
  | cons x xs ih =>
    cases x with
    | ok => simpa [join_workers] using Nat.succ_le_succ ih
    | panicked payload =>
      cases payload with
      | str s => simp [join_workers]
      | other s => simpa [join_workers] using Nat.succ_le_succ ih

/-- C2 (amended): if the download of any queued dependency fails with an
error, `download_dependencies` returns an error value to the caller —
never success and never a process abort (the worker's panic is converted
back into an error by the join loop) — but not every spawned worker is
necessarily joined first: only the handles up to the first one whose
panic surfaces, in spawn order. `dl` is assumed to never panic, as
`Dependency::download` only returns `Result` values. -/
theorem c2_failure_surfaces_error
    (dl : Dependency → RunResult Unit) (queue_split : List (List Dependency))
    (hnp : ∀ d m, dl d ≠ .panicked m)
    (hfail : ∃ part ∈ queue_split, ∃ d ∈ part, ∃ e, dl d = .err e) :
    (∃ m, (download_dependencies dl queue_split).1 = .err m) ∧
    (download_dependencies dl queue_split).2 ≤ queue_split.length := by
  obtain ⟨part, hpart, hd⟩ := hfail
  obtain ⟨s, hs⟩ := worker_process_panics dl hnp part hd
  constructor
  · exact join_workers_err_of_str_panic _
      ⟨worker_process dl part, List.mem_map_of_mem _ hpart, s, hs⟩
  · simpa [download_dependencies] using
      join_workers_count_le (queue_split.map (worker_process dl))

/-- Witness for C2 (amended) at a concrete failing queue. -/
theorem c2_witness :
    (∃ m, (download_dependencies
      (fun d => if d.uri = "bad" then .err "boom" else .ok ())
      [[⟨"s", "good"⟩, ⟨"s", "bad"⟩]]).1 = .err m) ∧
    (download_dependencies (fun d => if d.uri = "bad" then .err "boom" else .ok ())
      [[⟨"s", "good"⟩, ⟨"s", "bad"⟩]]).2 ≤ 1 :=
  c2_failure_surfaces_error (fun d => if d.uri = "bad" then .err "boom" else .ok ())
    [[⟨"s", "good"⟩, ⟨"s", "bad"⟩]]
    (fun d m => by by_cases h : d.uri = "bad" <;> simp [h])
    ⟨[⟨"s", "good"⟩, ⟨"s", "bad"⟩], by simp, ⟨"s", "bad"⟩, by simp, "boom", by simp⟩

/-- Counterexample to C2 as stated: with two workers whose first panics
(its dependency's download fails) and whose second completes normally,
the fetch returns the error after joining only the first handle — the
second spawned worker is not joined before the error is returned (1 of 2
handles joined). -/
theorem c2_counterexample :
    download_dependencies (fun d => if d.uri = "bad" then .err "boom" else .ok ())
      [[⟨"s", "bad"⟩], [⟨"s", "good"⟩]]
      = (.err "thread panic: Download of bad failed with error boom", 1) ∧
    ([[(⟨"s", "bad"⟩ : Dependency)], [⟨"s", "good"⟩]].length = 2 ∧ (1 : Nat) ≠ 2) := by
  exact ⟨by decide, by decide, by decide⟩

/-! ### C3 -/

/-- C3 (amended): when the target key path already exists and the
confirmation declines, `add_binding` fails with the "binding already
exists" error and the filesystem is left completely unchanged: the key
file keeps its previous contents, and — contrary to the claim as stated —
the `type` marker is NOT rewritten either, because the confirmation gate
in `add_binding` runs before `BindingWriter::write` (which is what writes
the type unconditionally) is ever invoked. -/
theorem c3_decline_writes_nothing
    (bp : BindingProcessor) (fs : FS) (kv btype k v : String) (c' : BindingConfirmers)
    (ht : bp.binding_type = some btype)
    (hs : splitOnce kv '=' = some (k, v))
    (hex : fs.pathExists (bp.bindings_home ++ [bp.binding_name.getD btype] ++ [k]) = true)
    (hconf : bp.confirmer.confirm = (false, c')) :
    bp.add_binding fs kv = (.err "binding already exists", fs, c') := by
  have hex' : fs.pathExists (bp.bindings_home ++ [bp.binding_name.getD btype, k]) = true := by
    simpa using hex
  unfold BindingProcessor.add_binding
  rw [ht]
  simp only
  rw [hs]
  simp [BindingWriter.binding_key_path, hex', hconf]

/-- Witness for C3 (amended) at a concrete state. -/
theorem c3_witness :
    BindingProcessor.add_binding ⟨["h"], some "T", none, .Never⟩
      ⟨[(["h", "T", "type"], ⟨"old", true⟩), (["h", "T", "k"], ⟨"v1", true⟩)],
        [["h"], ["h", "T"]]⟩ "k=v2"
      = (.err "binding already exists",
         ⟨[(["h", "T", "type"], ⟨"old", true⟩), (["h", "T", "k"], ⟨"v1", true⟩)],
           [["h"], ["h", "T"]]⟩, .Never) :=
  c3_decline_writes_nothing ⟨["h"], some "T", none, .Never⟩
    ⟨[(["h", "T", "type"], ⟨"old", true⟩), (["h", "T", "k"], ⟨"v1", true⟩)],
      [["h"], ["h", "T"]]⟩ "k=v2" "T" "k" "v2" .Never
    rfl (by decide) (by decide) rfl

/-- Counterexample to C3 as stated: a binding whose `type` file holds
`"old"` and whose key `k` exists; the declined add fails, yet the type
marker still holds `"old"`, not the given type `"T"` — the claim's
assertion that the type file is nonetheless overwritten is false. -/
theorem c3_counterexample :
    (BindingProcessor.add_binding ⟨["h"], some "T", none, .Never⟩
      ⟨[(["h", "T", "type"], ⟨"old", true⟩), (["h", "T", "k"], ⟨"v1", true⟩)],
        [["h"], ["h", "T"]]⟩ "k=v2").1 = .err "binding already exists" ∧
    (BindingProcessor.add_binding ⟨["h"], some "T", none, .Never⟩
      ⟨[(["h", "T", "type"], ⟨"old", true⟩), (["h", "T", "k"], ⟨"v1", true⟩)],
        [["h"], ["h", "T"]]⟩ "k=v2").2.1.fileContent? ["h", "T", "type"]
      = some ⟨"old", true⟩ ∧
    ("old" : String) ≠ "T" := by
  exact ⟨by decide, by decide, by decide⟩

/-! ### C5 -/

theorem splitOnceChar_none_of_not_mem (l : List Char) (c : Char)
    (h : ∀ x ∈ l, x ≠ c) : splitOnceChar l c = none := by
  induction l with
  | nil => rfl
  | cons x xs ih =>
    have hx : ¬(x = c) := h x (List.mem_cons_self x xs)
    simp [splitOnceChar, hx, ih fun y hy => h y (List.mem_cons_of_mem x hy)]

/-- C5 (amended): a `key=value` argument containing NO `=` separator
makes `add_binding` fail with the "could not parse key/value" error and
leaves the filesystem unchanged. (A string with two or more `=` does not
fail: `split_once` splits at the first `=`, see the counterexample.) -/
theorem c5_no_separator_fails
    (bp : BindingProcessor) (fs : FS) (kv btype : String)
    (ht : bp.binding_type = some btype)
    (hnk : ∀ ch ∈ kv.data, ch ≠ '=') :
    bp.add_binding fs kv = (.err ("could not parse key/value -> " ++ kv), fs, bp.confirmer) := by
  have hs : splitOnce kv '=' = none := by
    unfold splitOnce
    rw [splitOnceChar_none_of_not_mem kv.data '=' hnk]
    rfl
  unfold BindingProcessor.add_binding
  rw [ht]
  simp only
  rw [hs]

/-- Witness for C5 (amended): a pair with no `=` at all. -/
theorem c5_witness :
    BindingProcessor.add_binding ⟨["h"], some "T", none, .Always⟩ ⟨[], []⟩ "abc"
      = (.err "could not parse key/value -> abc", ⟨[], []⟩, .Always) :=
  c5_no_separator_fails ⟨["h"], some "T", none, .Always⟩ ⟨[], []⟩ "abc" "T"
    rfl (by decide)

/-- Counterexample to C5 as stated: `"a=b=c"` contains two `=`
separators, yet the add succeeds, writing key `a` with value `"b=c"` —
the claim that any count other than exactly one `=` fails with an error
and writes nothing is false for two or more. -/
theorem c5_counterexample :
    (BindingProcessor.add_binding ⟨["h"], some "T", none, .Never⟩ ⟨[], []⟩ "a=b=c").1
      = .ok () ∧
    (BindingProcessor.add_binding ⟨["h"], some "T", none, .Never⟩ ⟨[], []⟩
      "a=b=c").2.1.fileContent? ["h", "T", "a"] = some ⟨"b=c", true⟩ := by
  exact ⟨by decide, by decide⟩

/-! ### C4 -/

/-- C4 (amended): a dependency entry carrying both `sha256` and
`checksum`, or neither (their presence flags equal), makes `transform`
abort by panicking with "sha256 or checksum field is required" — a
process abort, not an error value returned to the caller, though either
way no partial dependency list escapes; a `checksum` entry whose
algorithm tag (before the first `:`) is not `sha256` makes `transform`
panic with "only sha256 algorithm is supported". -/
theorem c4_checksum_shape_panics :
    (∀ (t : List (String × Toml)) (rest : List Toml) (uri : String),
      tomlGet t "uri" = some (.str uri) →
      (tomlGet t "sha256").isSome = (tomlGet t "checksum").isSome →
      transform (.table [("metadata", .table [("dependencies", .arr (.table t :: rest))])])
        = .panicked "sha256 or checksum field is required") ∧
    (∀ (t : List (String × Toml)) (rest : List Toml) (uri cs : String),
      tomlGet t "uri" = some (.str uri) →
      tomlGet t "sha256" = none →
      tomlGet t "checksum" = some (.str cs) →
      (∀ h, splitOnce cs ':' ≠ some ("sha256", h)) →
      transform (.table [("metadata", .table [("dependencies", .arr (.table t :: rest))])])
        = .panicked "only sha256 algorithm is supported") := by
  constructor
  · intro t rest uri huri hsc
    show transformDeps (.table t :: rest) = _
    cases hS : tomlGet t "sha256" <;> cases hC : tomlGet t "checksum" <;>
      rw [hS, hC] at hsc <;>
      simp_all [transformDeps, Toml.as_table, Toml.as_str, huri, hS, hC]
  · intro t rest uri cs huri hS hC hne
    show transformDeps (.table t :: rest) = _
    have halg : ∀ alg h, splitOnce cs ':' = some (alg, h) → ¬(alg = "sha256") := by
      intro alg h hsp heq
      exact hne h (by rw [hsp, heq])
    cases hsp : splitOnce cs ':' with
    | none => simp [transformDeps, Toml.as_table, Toml.as_str, huri, hS, hC, hsp]
    | some p =>
      obtain ⟨alg, h⟩ := p
      have : ¬(alg = "sha256") := halg alg h hsp
      simp [transformDeps, Toml.as_table, Toml.as_str, huri, hS, hC, hsp, this]

/-- Witness for C4 (amended): a neither-present entry and a `md5`-tagged
checksum entry both make the parse panic. -/
theorem c4_witness :
    transform (.table [("metadata", .table [("dependencies", .arr
      [.table [("uri", .str "u")]])])])
      = .panicked "sha256 or checksum field is required" ∧
    transform (.table [("metadata", .table [("dependencies", .arr
      [.table [("uri", .str "u"), ("checksum", .str "md5:xx")]])])])
      = .panicked "only sha256 algorithm is supported" := by
  constructor
  · exact c4_checksum_shape_panics.1 [("uri", .str "u")] [] "u" rfl rfl
  · refine c4_checksum_shape_panics.2 [("uri", .str "u"), ("checksum", .str "md5:xx")]
      [] "u" "md5:xx" rfl rfl rfl ?_
    intro h hc
    rw [show splitOnce "md5:xx" ':' = some ("md5", "xx") from rfl] at hc
    simp at hc

/-- Counterexample to C4 as stated: an entry with both `sha256` and
`checksum` present makes `transform` panic (a process abort), so no
`AmbiguousChecksum` error value is returned to the caller. -/
theorem c4_counterexample :
    transform (.table [("metadata", .table [("dependencies", .arr
      [.table [("uri", .str "u"), ("sha256", .str "a"), ("checksum", .str "sha256:b")]])])])
      = .panicked "sha256 or checksum field is required" ∧
    (transform (.table [("metadata", .table [("dependencies", .arr
      [.table [("uri", .str "u"), ("sha256", .str "a"),
        ("checksum", .str "sha256:b")]])])])).isReturnedErr = false := by
  exact ⟨by decide, by decide⟩

/-! ### C6 -/

theorem find?_filter_ne (l : List (Path × FSFile)) (p kp : Path) (h : p ≠ kp) :
    (l.filter (fun e => !(decide (e.1 = kp)))).find? (fun e => decide (e.1 = p))
      = l.find? (fun e => decide (e.1 = p)) := by
  have hkpp : ¬(kp = p) := fun hh => h hh.symm
  induction l with
  | nil => rfl
  | cons x xs ih =>
    by_cases hkp : x.1 = kp
    · have hxp : ¬(x.1 = p) := by
        rw [hkp]
        exact hkpp
      simp [List.filter_cons, hkp, List.find?_cons, hxp, ih, hkpp]
    · by_cases hxp : x.1 = p
      · simp [List.filter_cons, hkp, List.find?_cons, hxp, h, hkpp]
      · simp [List.filter_cons, hkp, List.find?_cons, hxp, ih]

theorem removeFile_preserves (fs : FS) (kp p : Path) (fs' : FS)
    (hrm : fs.removeFile kp = .ok fs') (h : p ≠ kp) :
    fs'.fileContent? p = fs.fileContent? p ∧ fs'.dirs = fs.dirs := by
  unfold FS.removeFile at hrm
  by_cases hex : fs.existsFile kp = true
  · rw [if_pos hex] at hrm
    cases hrm
    exact ⟨by simp [FS.fileContent?, find?_filter_ne fs.files p kp h], rfl⟩
  · rw [if_neg hex] at hrm
    cases hrm

theorem delete_keys_loop_untouched (bpath : Path) :
    ∀ (ks : List String) (conf : BindingConfirmers) (fs : FS) (p : Path),
      (∀ k ∈ ks, p ≠ bpath ++ [k]) →
      (delete_keys_loop conf fs bpath ks).2.1.fileContent? p = fs.fileContent? p ∧
      (delete_keys_loop conf fs bpath ks).2.1.dirs = fs.dirs := by
  intro ks
  induction ks with
  | nil => intro conf fs p _; exact ⟨rfl, rfl⟩
  | cons k rest ih =>
    intro conf fs p hp
    have hpk : p ≠ bpath ++ [k] := hp k (List.mem_cons_self k rest)
    have hprest : ∀ x ∈ rest, p ≠ bpath ++ [x] :=
      fun x hx => hp x (List.mem_cons_of_mem k hx)
    unfold delete_keys_loop
    by_cases hex : fs.pathExists (bpath ++ [k]) = true
    · rw [if_pos hex]
      rcases hc : conf.confirm with ⟨b, conf'⟩
      cases b
      · exact ⟨rfl, rfl⟩
      · cases hrm : fs.removeFile (bpath ++ [k]) with
        | ok fs' =>
          obtain ⟨h1, h2⟩ := removeFile_preserves fs (bpath ++ [k]) p fs' hrm hpk
          obtain ⟨h3, h4⟩ := ih conf' fs' p hprest
          exact ⟨h3.trans h1, h4.trans h2⟩
        | err m => exact ⟨rfl, rfl⟩
        | panicked m => exact ⟨rfl, rfl⟩
    · rw [if_neg hex]
      exact ih conf fs p hprest

theorem delete_keys_loop_cons (conf : BindingConfirmers) (fs : FS) (bpath : Path)
    (k : String) (rest : List String) :
    delete_keys_loop conf fs bpath (k :: rest)
      = if fs.pathExists (bpath ++ [k]) then
          match conf.confirm with
          | (true, conf') =>
            match fs.removeFile (bpath ++ [k]) with
            | .ok fs' => delete_keys_loop conf' fs' bpath rest
            | .err m => (.err m, fs, conf')
            | .panicked m => (.panicked m, fs, conf')
          | (false, conf') => (.err "confirmation declined, exiting", fs, conf')
        else delete_keys_loop conf fs bpath rest := rfl

theorem delete_keys_loop_append_ok (bpath : Path) :
    ∀ (ks1 : List String) (conf : BindingConfirmers) (fs fs1 : FS)
      (c1 : BindingConfirmers) (ks2 : List String),
      delete_keys_loop conf fs bpath ks1 = (.ok (), fs1, c1) →
      delete_keys_loop conf fs bpath (ks1 ++ ks2) = delete_keys_loop c1 fs1 bpath ks2 := by
  intro ks1
  induction ks1 with
  | nil =>
    intro conf fs fs1 c1 ks2 h
    have h1 : fs = fs1 := congrArg (fun t => t.2.1) h
    have h2 : conf = c1 := congrArg (fun t => t.2.2) h
    rw [List.nil_append, h1, h2]
  | cons k rest ih =>
    intro conf fs fs1 c1 ks2 h
    rw [delete_keys_loop_cons] at h
    rw [List.cons_append, delete_keys_loop_cons]
    by_cases hex : fs.pathExists (bpath ++ [k]) = true
    · rw [if_pos hex] at h ⊢
      rcases hc : conf.confirm with ⟨b, conf'⟩
      rw [hc] at h
      cases b
      · exact absurd (congrArg (fun t => t.1) h) (by simp)
      · cases hrm : fs.removeFile (bpath ++ [k]) with
        | ok fs' =>
          rw [hrm] at h
          exact ih conf' fs' fs1 c1 ks2 h
        | err m =>
          rw [hrm] at h
          exact absurd (congrArg (fun t => t.1) h) (by simp)
        | panicked m =>
          rw [hrm] at h
          exact absurd (congrArg (fun t => t.1) h) (by simp)
    · rw [if_neg hex] at h ⊢
      exact ih conf fs fs1 c1 ks2 h

theorem delete_keys_loop_decline_head (bpath : Path) (k : String) (ks2 : List String)
    (fs1 : FS) (c1 c2 : BindingConfirmers)
    (hex : fs1.pathExists (bpath ++ [k]) = true)
    (hc : c1.confirm = (false, c2)) :
    delete_keys_loop c1 fs1 bpath (k :: ks2)
      = (.err "confirmation declined, exiting", fs1, c2) := by
  unfold delete_keys_loop
  rw [if_pos hex, hc]

/-- C6: in `delete_bindings` with a non-empty key list, every key present
on disk is gated behind a confirmation, and a declined confirmation
aborts the whole call immediately with the "confirmation declined" error,
returning exactly the state reached so far: keys already removed earlier
in the same call stay deleted and everything else is untouched (the
per-key loop changes nothing outside the listed key paths); with an empty
key list, removal of the whole binding directory is gated behind a single
confirmation whose decline aborts with the filesystem unchanged. -/
theorem c6_delete_confirmation_gates
    (bp : BindingProcessor) (fs : FS) (name : String)
    (hname : bp.binding_name = some name)
    (hroot : fs.isDir bp.bindings_home = true) :
    (∀ (ks1 : List String) (k : String) (ks2 : List String) (fs1 : FS)
        (c1 c2 : BindingConfirmers),
      delete_keys_loop bp.confirmer fs (bp.bindings_home ++ [name]) ks1 = (.ok (), fs1, c1) →
      fs1.pathExists (bp.bindings_home ++ [name] ++ [k]) = true →
      c1.confirm = (false, c2) →
      bp.delete_bindings fs (ks1 ++ k :: ks2)
        = (.err "confirmation declined, exiting", fs1, c2)) ∧
    (∀ (ks : List String) (p : Path),
      (∀ k ∈ ks, p ≠ bp.bindings_home ++ [name] ++ [k]) →
      (delete_keys_loop bp.confirmer fs (bp.bindings_home ++ [name]) ks).2.1.fileContent? p
        = fs.fileContent? p ∧
      (delete_keys_loop bp.confirmer fs (bp.bindings_home ++ [name]) ks).2.1.dirs = fs.dirs) ∧
    (∀ c2 : BindingConfirmers, bp.confirmer.confirm = (false, c2) →
      bp.delete_bindings fs [] = (.err "confirmation declined, exiting", fs, c2)) := by
  refine ⟨fun ks1 k ks2 fs1 c1 c2 hloop hex hc => ?_, fun ks p hp => ?_, fun c2 hc => ?_⟩
  · have hfull : delete_keys_loop bp.confirmer fs (bp.bindings_home ++ [name]) (ks1 ++ k :: ks2)
        = (.err "confirmation declined, exiting", fs1, c2) := by
      rw [delete_keys_loop_append_ok (bp.bindings_home ++ [name]) ks1 bp.confirmer fs fs1 c1
        (k :: ks2) hloop]
      exact delete_keys_loop_decline_head (bp.bindings_home ++ [name]) k ks2 fs1 c1 c2 hex hc
    unfold BindingProcessor.delete_bindings
    rw [hroot, hname]
    simp only [Bool.not_true, Bool.false_eq_true, if_false]
    rw [hfull]
  · exact delete_keys_loop_untouched (bp.bindings_home ++ [name]) ks bp.confirmer fs p hp
  · unfold BindingProcessor.delete_bindings
    rw [hroot, hname]
    simp only [Bool.not_true, Bool.false_eq_true, if_false]
    show (match delete_keys_loop bp.confirmer fs (bp.bindings_home ++ [name]) [] with
      | (.ok _, fs1, c1) => _ | other => other) = _
    unfold delete_keys_loop
    simp only [List.length_nil, decide_True, if_true]
    rw [hc]

/-- Witness for C6: a binding with keys `k1`, `k2` under a console
confirmer answering yes then no: `k1` is removed, the decline on `k2`
aborts with the error; and an empty-key delete under `Never` aborts with
nothing removed. -/
theorem c6_witness :
    BindingProcessor.delete_bindings ⟨["h"], none, some "B", .Console [some "yes", some "no"]⟩
      ⟨[(["h", "B", "k1"], ⟨"a", true⟩), (["h", "B", "k2"], ⟨"b", true⟩),
        (["h", "B", "type"], ⟨"t", true⟩)], [["h"], ["h", "B"]]⟩ ["k1", "k2"]
      = (.err "confirmation declined, exiting",
         ⟨[(["h", "B", "k2"], ⟨"b", true⟩), (["h", "B", "type"], ⟨"t", true⟩)],
           [["h"], ["h", "B"]]⟩, .Console []) ∧
    BindingProcessor.delete_bindings ⟨["h"], none, some "B", .Never⟩
      ⟨[(["h", "B", "k1"], ⟨"a", true⟩)], [["h"], ["h", "B"]]⟩ []
      = (.err "confirmation declined, exiting",
         ⟨[(["h", "B", "k1"], ⟨"a", true⟩)], [["h"], ["h", "B"]]⟩, .Never) := by
  constructor
  · exact (c6_delete_confirmation_gates
      ⟨["h"], none, some "B", .Console [some "yes", some "no"]⟩
      ⟨[(["h", "B", "k1"], ⟨"a", true⟩), (["h", "B", "k2"], ⟨"b", true⟩),
        (["h", "B", "type"], ⟨"t", true⟩)], [["h"], ["h", "B"]]⟩ "B" rfl (by decide)).1
      ["k1"] "k2" []
      ⟨[(["h", "B", "k2"], ⟨"b", true⟩), (["h", "B", "type"], ⟨"t", true⟩)],
        [["h"], ["h", "B"]]⟩
      (.Console [some "no"]) (.Console []) (by decide) (by decide) rfl
  · exact (c6_delete_confirmation_gates ⟨["h"], none, some "B", .Never⟩
      ⟨[(["h", "B", "k1"], ⟨"a", true⟩)], [["h"], ["h", "B"]]⟩ "B" rfl (by decide)).2.2
      .Never rfl

/-! ### C10 -/

theorem delete_keys_loop_never_err (bpath : Path) :
    ∀ (ks : List String) (fs : FS), (∃ k ∈ ks, fs.pathExists (bpath ++ [k]) = true) →
      delete_keys_loop .Never fs bpath ks
        = (.err "confirmation declined, exiting", fs, .Never) := by
  intro ks
  induction ks with
  | nil => rintro fs ⟨k, hk, _⟩; cases hk
  | cons x xs ih =>
    rintro fs ⟨k, hk, hex⟩
    unfold delete_keys_loop
    by_cases hx : fs.pathExists (bpath ++ [x]) = true
    · rw [if_pos hx]
      rfl
    · rw [if_neg hx]
      have hmem : k ∈ xs := by
        cases hk with
        | head => exact absurd hex hx
        | tail _ hmem => exact hmem
      exact ih fs ⟨k, hmem, hex⟩

/-- C10: `DeleteCommandHandler::handle` maps the force flag to the
auto-deny `Never` confirmer (not auto-approve) and its absence to the
interactive console confirmer; consequently a forced delete of a whole
binding directory (empty key list), and a forced delete naming any key
that exists on disk, always fails with the "confirmation declined" error
and removes nothing. -/
theorem c10_force_maps_to_never :
    (∀ stdin, delete_command_confirmer true stdin = .Never) ∧
    (∀ stdin, delete_command_confirmer false stdin = .Console stdin) ∧
    (∀ (home : Path) (name : String) (fs : FS), fs.isDir home = true →
      BindingProcessor.delete_bindings ⟨home, none, some name, .Never⟩ fs []
        = (.err "confirmation declined, exiting", fs, .Never)) ∧
    (∀ (home : Path) (name : String) (fs : FS) (keys : List String),
      fs.isDir home = true →
      (∃ k ∈ keys, fs.pathExists (home ++ [name] ++ [k]) = true) →
      BindingProcessor.delete_bindings ⟨home, none, some name, .Never⟩ fs keys
        = (.err "confirmation declined, exiting", fs, .Never)) := by
  refine ⟨fun _ => rfl, fun _ => rfl, fun home name fs hroot => ?_,
    fun home name fs keys hroot hex => ?_⟩
  · unfold BindingProcessor.delete_bindings
    rw [show FS.isDir fs home = true from hroot]
    rfl
  · unfold BindingProcessor.delete_bindings
    rw [show FS.isDir fs home = true from hroot]
    simp only [Bool.not_true, Bool.false_eq_true, if_false]
    rw [delete_keys_loop_never_err (home ++ [name]) keys fs hex]

/-- Witness for C10: a forced whole-binding delete and a forced key
delete both decline and change nothing. -/
theorem c10_witness :
    BindingProcessor.delete_bindings ⟨["h"], none, some "B",
      delete_command_confirmer true []⟩
      ⟨[(["h", "B", "k"], ⟨"v", true⟩)], [["h"], ["h", "B"]]⟩ []
      = (.err "confirmation declined, exiting",
         ⟨[(["h", "B", "k"], ⟨"v", true⟩)], [["h"], ["h", "B"]]⟩, .Never) ∧
    BindingProcessor.delete_bindings ⟨["h"], none, some "B",
      delete_command_confirmer true []⟩
      ⟨[(["h", "B", "k"], ⟨"v", true⟩)], [["h"], ["h", "B"]]⟩ ["k"]
      = (.err "confirmation declined, exiting",
         ⟨[(["h", "B", "k"], ⟨"v", true⟩)], [["h"], ["h", "B"]]⟩, .Never) :=
  ⟨c10_force_maps_to_never.2.2.1 ["h"] "B"
     ⟨[(["h", "B", "k"], ⟨"v", true⟩)], [["h"], ["h", "B"]]⟩ (by decide),
   c10_force_maps_to_never.2.2.2 ["h"] "B"
     ⟨[(["h", "B", "k"], ⟨"v", true⟩)], [["h"], ["h", "B"]]⟩ ["k"] (by decide)
     ⟨"k", by decide, by decide⟩⟩

end BindingTool
